import Mathlib

/-!
Verification of the work-hour and salary tracker (src/app.py).

The embedding models the business-logic core: the time/pay calculator
(compute_total_hours and the salary rounding), the work-entries table as a
list of rows, the CRUD operations (check_in, check_out, add_record,
edit_record, delete_record, update_default_rate) and the monthly report
(month-range resolution, filtering, ordering and aggregation).

Modelling conventions:
  - SQLite floats are modelled as rationals; Python round(x, 2)
    (round-half-to-even) is modelled exactly by round2 below.
  - A stored HH:MM time string that strptime accepts is modelled as a Time
    value (hour, minute); a NULL time column is an Option none.
  - Form inputs whose float parse can fail are Option values, none meaning
    the ValueError branch was taken; an empty time field is none.
  - The table is a list of rows in rowid order; SQL WHERE maps to filter,
    UPDATE to map, DELETE to filter, and ORDER BY work_date ASC to a sort
    by the work_date string (ISO dates compare correctly as strings).
-/

namespace MySalary

/-- A wall-clock time of day, the parse of an HH:MM string (%H:%M). -/
structure Time where
  hour : Nat
  minute : Nat
deriving DecidableEq, Repr

def Time.toMinutes (t : Time) : Nat := t.hour * 60 + t.minute

/-- Python round(x, 2): round to 2 decimal places, halves to the even cent. -/
def round2 (q : ℚ) : ℚ :=
  let x := q * 100
  let f : ℤ := Int.floor x
  let r : ℚ := x - (f : ℚ)
  let n : ℤ :=
    if r < 1/2 then f
    else if 1/2 < r then f + 1
    else if f % 2 = 0 then f else f + 1
  (n : ℚ) / 100

/-- compute_total_hours from app.py: elapsed hours between two clock times,
adding a day when the end is strictly before the start, rounded to 2
decimals. -/
def compute_total_hours (check_in check_out : Time) : ℚ :=
  let s := check_in.toMinutes
  let e := check_out.toMinutes
  let e2 := if e < s then e + 1440 else e
  round2 (((e2 : ℚ) - (s : ℚ)) / 60)

/-- A row of the work_entries table. -/
structure WorkEntry where
  id : Nat
  work_date : String
  check_in : Option Time
  check_out : Option Time
  total_hours : Option ℚ
  hourly_rate : Option ℚ
  daily_salary : Option ℚ
deriving DecidableEq, Repr

/-- The error outcomes surfaced by the handlers.  typeError models the
unhandled Python TypeError raised when check_out reaches
compute_total_hours with a NULL stored check_in. -/
inductive AppError where
  | alreadyCheckedIn
  | noOpenEntry
  | notFound
  | invalidInput
  | typeError
deriving DecidableEq, Repr

/-- Fold step realising ORDER BY id DESC LIMIT 1: keep the row with the
largest id. -/
def moreRecent (a : Option WorkEntry) (e : WorkEntry) : Option WorkEntry :=
  match a with
  | none => some e
  | some b => if b.id ≤ e.id then some e else some b

/-- open_entry_for_date from app.py: the most recent row for the date whose
check_out is NULL. -/
def open_entry_for_date (entries : List WorkEntry) (target_date : String) :
    Option WorkEntry :=
  (entries.filter fun e =>
    decide (e.work_date = target_date ∧ e.check_out = none)).foldl moreRecent none

/-- The row inserted by check_in: current time as check_in, the rate passed
to the operation (the default_hourly_rate setting at the route), everything
derived left NULL. -/
def new_checkin_row (newId : Nat) (today : String) (now : Time)
    (rate : ℚ) : WorkEntry :=
  { id := newId, work_date := today, check_in := some now, check_out := none,
    total_hours := none, hourly_rate := some rate, daily_salary := none }

/-- check_in from app.py (web and API route bodies are identical). -/
def check_in (entries : List WorkEntry) (today : String) (now : Time)
    (default_rate : ℚ) (newId : Nat) : Except AppError (List WorkEntry) :=
  match open_entry_for_date entries today with
  | some _ => .error .alreadyCheckedIn
  | none => .ok (entries ++ [new_checkin_row newId today now default_rate])

/-- The rate check_out actually uses: the Python expression
float(stored rate or default setting), where a NULL column and a stored
0.0 are both falsy. -/
def rateOrDefault (stored : Option ℚ) (default_rate : ℚ) : ℚ :=
  match stored with
  | none => default_rate
  | some r => if r = 0 then default_rate else r

/-- The in-place UPDATE of check_out: only the three derived columns are
assigned. -/
def checked_out_row (e : WorkEntry) (now : Time) (th ds : ℚ) : WorkEntry :=
  { e with
    check_out := some now,
    total_hours := some th,
    daily_salary := some ds }

/-- check_out from app.py (web and API route bodies are identical).
typeError models the TypeError strptime raises when the open entry has a
NULL check_in (reachable via manual record creation). -/
def check_out (entries : List WorkEntry) (today : String) (now : Time)
    (default_rate : ℚ) : Except AppError (List WorkEntry) :=
  match open_entry_for_date entries today with
  | none => .error .noOpenEntry
  | some oe =>
    match oe.check_in with
    | none => .error .typeError
    | some ci =>
      let th := compute_total_hours ci now
      let rate := rateOrDefault oe.hourly_rate default_rate
      let ds := round2 (th * rate)
      .ok (entries.map fun e =>
        if e.id = oe.id then checked_out_row e now th ds else e)

/-- The row built by add_record: rate_input none models the float
ValueError branch (which substitutes the default rate); a none time models
an empty form field (stored as NULL); hours and salary are computed only
when both times are present. -/
def add_row (newId : Nat) (work_date : String) (check_in check_out : Option Time)
    (rate_input : Option ℚ) (default_rate : ℚ) : WorkEntry :=
  let hourly_rate := match rate_input with
    | some r => r
    | none => default_rate
  match check_in, check_out with
  | some ci, some co =>
    let th := compute_total_hours ci co
    { id := newId, work_date := work_date, check_in := some ci,
      check_out := some co, total_hours := some th,
      hourly_rate := some hourly_rate,
      daily_salary := some (round2 (th * hourly_rate)) }
  | _, _ =>
    { id := newId, work_date := work_date, check_in := check_in,
      check_out := check_out, total_hours := none,
      hourly_rate := some hourly_rate, daily_salary := none }

/-- add_record from app.py: unconditional INSERT of the built row. -/
def add_record (entries : List WorkEntry) (work_date : String)
    (check_in check_out : Option Time) (rate_input : Option ℚ)
    (default_rate : ℚ) (newId : Nat) : List WorkEntry :=
  entries ++ [add_row newId work_date check_in check_out rate_input default_rate]

/-- The row edit_record writes: the same field computation as add_record,
written out as in the source (the two handlers duplicate the logic). -/
def edit_row (record_id : Nat) (work_date : String)
    (check_in check_out : Option Time) (rate_input : Option ℚ)
    (default_rate : ℚ) : WorkEntry :=
  let hourly_rate := match rate_input with
    | some r => r
    | none => default_rate
  match check_in, check_out with
  | some ci, some co =>
    let th := compute_total_hours ci co
    { id := record_id, work_date := work_date, check_in := some ci,
      check_out := some co, total_hours := some th,
      hourly_rate := some hourly_rate,
      daily_salary := some (round2 (th * hourly_rate)) }
  | _, _ =>
    { id := record_id, work_date := work_date, check_in := check_in,
      check_out := check_out, total_hours := none,
      hourly_rate := some hourly_rate, daily_salary := none }

/-- edit_record from app.py: 404 when the id is absent, else a full
overwrite UPDATE of every column of that row. -/
def edit_record (entries : List WorkEntry) (record_id : Nat)
    (work_date : String) (check_in check_out : Option Time)
    (rate_input : Option ℚ) (default_rate : ℚ) :
    Except AppError (List WorkEntry) :=
  if entries.any fun e => decide (e.id = record_id) then
    .ok (entries.map fun e =>
      if e.id = record_id then
        edit_row record_id work_date check_in check_out rate_input default_rate
      else e)
  else .error .notFound

/-- delete_record from app.py: unconditional DELETE WHERE id = record_id. -/
def delete_record (entries : List WorkEntry) (record_id : Nat) :
    List WorkEntry :=
  entries.filter fun e => decide (¬ e.id = record_id)

/-- update_default_rate from app.py: the float ValueError branch (input
none) flashes Invalid rate and leaves the setting unchanged. -/
def update_default_rate (current : ℚ) (rate_input : Option ℚ) :
    Except AppError ℚ :=
  match rate_input with
  | none => .error .invalidInput
  | some r => .ok r

/-- A calendar date, as Python datetime.date. -/
structure Date where
  year : Nat
  month : Nat
  day : Nat
deriving DecidableEq, Repr

/-- The Gregorian leap-year rule used by the Python date arithmetic. -/
def isLeap (y : Nat) : Bool :=
  (y % 4 == 0 && y % 100 != 0) || y % 400 == 0

def daysInMonth (y m : Nat) : Nat :=
  if m = 2 then (if isLeap y then 29 else 28)
  else if m = 4 ∨ m = 6 ∨ m = 9 ∨ m = 11 then 30
  else 31

def nextDay (d : Date) : Date :=
  if d.day < daysInMonth d.year d.month then
    { d with day := d.day + 1 }
  else if d.month < 12 then
    { year := d.year, month := d.month + 1, day := 1 }
  else
    { year := d.year + 1, month := 1, day := 1 }

/-- Addition of n days, as Python date plus timedelta(days = n). -/
def addDays : Date → Nat → Date
  | d, 0 => d
  | d, n + 1 => addDays (nextDay d) n

/-- The previous day, as Python date minus timedelta(days = 1). -/
def prevDay (d : Date) : Date :=
  if 1 < d.day then { d with day := d.day - 1 }
  else if 1 < d.month then
    { year := d.year, month := d.month - 1,
      day := daysInMonth d.year (d.month - 1) }
  else { year := d.year - 1, month := 12, day := 31 }

/-- Truncation to the first of the month, date.replace with day 1. -/
def withDay1 (d : Date) : Date := { d with day := 1 }

/-- The report start date: the first of the requested month. -/
def report_start (y m : Nat) : Date := { year := y, month := m, day := 1 }

/-- The report end date as app.py computes it:
(start.replace(day=28) + timedelta(days=4)).replace(day=1) - timedelta(days=1). -/
def report_end (y m : Nat) : Date :=
  prevDay (withDay1 (addDays { year := y, month := m, day := 28 } 4))

/-- Month resolution of the report routes: an absent or unparseable month
parameter (none) is replaced by the current month. -/
def resolve_month (month_param : Option (Nat × Nat)) (today_y today_m : Nat) :
    Nat × Nat :=
  match month_param with
  | some ym => ym
  | none => (today_y, today_m)

def pad2 (n : Nat) : String :=
  if n < 10 then "0" ++ toString n else toString n

def pad4 (n : Nat) : String :=
  if n < 10 then "000" ++ toString n
  else if n < 100 then "00" ++ toString n
  else if n < 1000 then "0" ++ toString n
  else toString n

/-- ISO format of a date, zero-padded YYYY-MM-DD, as date.isoformat produces. -/
def Date.toISO (d : Date) : String :=
  pad4 d.year ++ "-" ++ pad2 d.month ++ "-" ++ pad2 d.day

/-- Byte-wise comparison of character lists, as SQLite compares TEXT
values (ISO dates are ASCII, so code-point order is byte order). -/
def charListLe : List Char → List Char → Bool
  | [], _ => true
  | _ :: _, [] => false
  | c :: cs, d :: ds =>
    if c.toNat < d.toNat then true
    else if d.toNat < c.toNat then false
    else charListLe cs ds

def strLe (a b : String) : Bool := charListLe a.data b.data

/-- The BETWEEN predicate of the report query. -/
def inRange (s e : String) (r : WorkEntry) : Bool :=
  strLe s r.work_date && strLe r.work_date e

/-- ORDER BY work_date ASC, as a relation on rows. -/
def byDate (a b : WorkEntry) : Prop :=
  strLe a.work_date b.work_date = true

instance : DecidableRel byDate := fun a b =>
  inferInstanceAs (Decidable (strLe a.work_date b.work_date = true))

structure ReportResult where
  start_date : Date
  end_date : Date
  rows : List WorkEntry
  total_hours : ℚ
  total_salary : ℚ

/-- The report route body shared by /report, the exports and /api/report:
select rows with work_date BETWEEN the month bounds ordered ascending by
work_date, then sum hours and salaries with NULL as 0 and round to 2
decimals. -/
def report (entries : List WorkEntry) (y m : Nat) : ReportResult :=
  let s := report_start y m
  let e := report_end y m
  let rows := List.insertionSort byDate
    (entries.filter (inRange s.toISO e.toISO))
  { start_date := s, end_date := e, rows := rows,
    total_hours := round2 (rows.map fun r => r.total_hours.getD 0).sum,
    total_salary := round2 (rows.map fun r => r.daily_salary.getD 0).sum }

/-- Modelled from the spec: the elapsed-hours description of section 4.1,
the difference of the two clock times in hours, adding 24 hours when
check_out is strictly earlier than check_in, rounded to 2 decimals.  Used
to compare the spec sentence with compute_total_hours. -/
def elapsedHours_spec (check_in check_out : Time) : ℚ :=
  let s : ℤ := check_in.toMinutes
  let e : ℤ := check_out.toMinutes
  let diff : ℤ := if e < s then e + 24 * 60 - s else e - s
  round2 ((diff : ℚ) / 60)

/-- Modelled from the spec: the last-day rule as the spec words it, last
day = (first day + 28 days, then + 4 days) truncated back to day 1, minus
1 day.  Used to compare the spec sentence with report_end. -/
def lastDay_specRule (y m : Nat) : Date :=
  prevDay (withDay1 (addDays (addDays { year := y, month := m, day := 1 } 28) 4))

lemma foldl_moreRecent_ne_none (l : List WorkEntry) (b : WorkEntry) :
    l.foldl moreRecent (some b) ≠ none := by
  induction l generalizing b with
  | nil => simp
  | cons e es ih =>
    simp only [List.foldl_cons]
    by_cases h : b.id ≤ e.id
    · simpa [moreRecent, h] using ih e
    · simpa [moreRecent, h] using ih b

/-- open_entry_for_date finds nothing exactly when no open row for the
date exists. -/
lemma open_entry_eq_none_iff (entries : List WorkEntry) (d : String) :
    open_entry_for_date entries d = none ↔
      ∀ e ∈ entries, ¬(e.work_date = d ∧ e.check_out = none) := by
  unfold open_entry_for_date
  cases hf : entries.filter
      (fun e => decide (e.work_date = d ∧ e.check_out = none)) with
  | nil =>
    simp only [List.foldl_nil]
    constructor
    · intro _ e he hc
      have hmem : e ∈ entries.filter
          (fun e => decide (e.work_date = d ∧ e.check_out = none)) :=
        List.mem_filter.mpr ⟨he, by simpa using hc⟩
      rw [hf] at hmem
      simp at hmem
    · intro _; trivial
  | cons a as =>
    constructor
    · intro h
      exfalso
      simp only [List.foldl_cons, moreRecent] at h
      exact foldl_moreRecent_ne_none as a h
    · intro h
      exfalso
      have hmem : a ∈ entries.filter
          (fun e => decide (e.work_date = d ∧ e.check_out = none)) := by
        rw [hf]; exact List.mem_cons_self a as
      have := List.mem_filter.mp hmem
      exact h a this.1 (by simpa using this.2)

/-- The successful check_out, written out: the three derived columns of
every row carrying the id of the open entry are assigned the computed values. -/
lemma check_out_ok_eq (entries : List WorkEntry) (today : String) (now : Time)
    (dr : ℚ) (oe : WorkEntry) (ci : Time)
    (ho : open_entry_for_date entries today = some oe)
    (hci : oe.check_in = some ci) :
    check_out entries today now dr = .ok (entries.map fun e =>
      if e.id = oe.id then
        checked_out_row e now (compute_total_hours ci now)
          (round2 (compute_total_hours ci now * rateOrDefault oe.hourly_rate dr))
      else e) := by
  simp only [check_out, ho, hci]

lemma charListLe_total (a b : List Char) :
    charListLe a b = true ∨ charListLe b a = true := by
  induction a generalizing b with
  | nil => left; rfl
  | cons c cs ih =>
    cases b with
    | nil => right; rfl
    | cons d ds =>
      rcases Nat.lt_trichotomy c.toNat d.toNat with h | h | h
      · left; simp [charListLe, h]
      · have h1 : ¬ c.toNat < d.toNat := by omega
        have h2 : ¬ d.toNat < c.toNat := by omega
        rcases ih ds with hcd | hdc
        · left; simp [charListLe, h1, h2, hcd]
        · right; simp [charListLe, h1, h2, hdc]
      · right; simp [charListLe, h]

lemma charListLe_trans (a b c : List Char) (hab : charListLe a b = true)
    (hbc : charListLe b c = true) : charListLe a c = true := by
  induction a generalizing b c with
  | nil => rfl
  | cons x xs ih =>
    cases b with
    | nil => simp [charListLe] at hab
    | cons y ys =>
      cases c with
      | nil => simp [charListLe] at hbc
      | cons z zs =>
        simp only [charListLe] at hab hbc ⊢
        by_cases hxy : x.toNat < y.toNat
        · by_cases hyz : y.toNat < z.toNat
          · simp [show x.toNat < z.toNat by omega]
          · by_cases hzy : z.toNat < y.toNat
            · rw [if_neg hyz, if_pos hzy] at hbc
              simp at hbc
            · simp [show x.toNat < z.toNat by omega]
        · by_cases hyx : y.toNat < x.toNat
          · rw [if_neg hxy, if_pos hyx] at hab
            simp at hab
          · rw [if_neg hxy, if_neg hyx] at hab
            by_cases hyz : y.toNat < z.toNat
            · simp [show x.toNat < z.toNat by omega]
            · by_cases hzy : z.toNat < y.toNat
              · rw [if_neg hyz, if_pos hzy] at hbc
                simp at hbc
              · rw [if_neg hyz, if_neg hzy] at hbc
                rw [if_neg (show ¬ x.toNat < z.toNat by omega),
                    if_neg (show ¬ z.toNat < x.toNat by omega)]
                exact ih ys zs hab hbc

instance : IsTotal WorkEntry byDate :=
  ⟨fun a b => charListLe_total a.work_date.data b.work_date.data⟩

instance : IsTrans WorkEntry byDate :=
  ⟨fun a b c => charListLe_trans a.work_date.data b.work_date.data c.work_date.data⟩

/-- The month-range end as app.py computes it agrees with the rule the
spec states, for every calendar month. -/
lemma report_end_eq_spec (y m : Nat) (h1 : 1 ≤ m) (h2 : m ≤ 12) :
    report_end y m = lastDay_specRule y m := by
  interval_cases m <;> cases hL : isLeap y <;>
    simp [report_end, lastDay_specRule, addDays, nextDay, prevDay, withDay1,
      daysInMonth, hL]

/-- A concrete open row (checked in, not yet out) used by the witnesses. -/
def row_open : WorkEntry :=
  { id := 1, work_date := "2024-03-05", check_in := some ⟨9, 0⟩,
    check_out := none, total_hours := none, hourly_rate := some 5,
    daily_salary := none }

/-- A concrete completed row used by the witnesses. -/
def row_closed : WorkEntry :=
  { id := 2, work_date := "2024-03-04", check_in := some ⟨8, 0⟩,
    check_out := some ⟨12, 0⟩, total_hours := some 4, hourly_rate := some 5,
    daily_salary := some 20 }

/-- Claim C4: for every pair of wall-clock times, compute_total_hours is
the difference in hours rounded to 2 decimals, treating a check-out
strictly earlier than the check-in as next-day (24 hours added); in
particular 09:00 to 17:00 gives 8.0 and 22:00 to 06:00 gives 8.0. -/
theorem C4_elapsedHours :
    (∀ t1 t2 : Time, compute_total_hours t1 t2 = elapsedHours_spec t1 t2) ∧
    compute_total_hours ⟨9, 0⟩ ⟨17, 0⟩ = 8 ∧
    compute_total_hours ⟨22, 0⟩ ⟨6, 0⟩ = 8 := by
  refine ⟨fun t1 t2 => ?_, ?_, ?_⟩
  · simp only [compute_total_hours, elapsedHours_spec]
    by_cases h : t2.toMinutes < t1.toMinutes
    · rw [if_pos h, if_pos (by exact_mod_cast h)]
      congr 1
      push_cast
      ring
    · rw [if_neg h, if_neg (by exact_mod_cast h)]
      congr 1
      push_cast
      ring
  · norm_num [compute_total_hours, Time.toMinutes, round2]
  · norm_num [compute_total_hours, Time.toMinutes, round2]

/-- Claim C5: check_in fails with AlreadyCheckedIn exactly when an open
entry exists for the date; otherwise it appends a fresh open row carrying
the current time and the given rate; and a second check-in after a
successful one fails. -/
theorem C5_checkIn (entries : List WorkEntry) (d : String) (now : Time)
    (rate : ℚ) (newId : Nat) :
    (check_in entries d now rate newId = .error .alreadyCheckedIn ↔
      ∃ e ∈ entries, e.work_date = d ∧ e.check_out = none) ∧
    ((∀ e ∈ entries, ¬(e.work_date = d ∧ e.check_out = none)) →
      check_in entries d now rate newId =
        .ok (entries ++ [new_checkin_row newId d now rate])) ∧
    (∀ st2 now2 rate2 newId2, check_in entries d now rate newId = .ok st2 →
      check_in st2 d now2 rate2 newId2 = .error .alreadyCheckedIn) := by
  refine ⟨⟨?_, ?_⟩, ?_, ?_⟩
  · intro herr
    by_contra hno
    push_neg at hno
    have hnone : open_entry_for_date entries d = none :=
      (open_entry_eq_none_iff entries d).mpr (by
        intro e he
        have := hno e he
        tauto)
    unfold check_in at herr
    rw [hnone] at herr
    exact Except.noConfusion herr
  · rintro ⟨e, he, hp⟩
    have hne : open_entry_for_date entries d ≠ none := fun hnone =>
      (open_entry_eq_none_iff entries d).mp hnone e he hp
    cases ho : open_entry_for_date entries d with
    | none => exact absurd ho hne
    | some oe => unfold check_in; rw [ho]
  · intro h
    have hnone := (open_entry_eq_none_iff entries d).mpr h
    unfold check_in
    rw [hnone]
  · intro st2 now2 rate2 newId2 hok
    unfold check_in at hok
    cases ho : open_entry_for_date entries d with
    | some oe =>
      rw [ho] at hok
      exact Except.noConfusion hok
    | none =>
      rw [ho] at hok
      have hst2 : st2 = entries ++ [new_checkin_row newId d now rate] := by
        cases hok
        rfl
      subst hst2
      have hne : open_entry_for_date
          (entries ++ [new_checkin_row newId d now rate]) d ≠ none :=
        fun hnone => (open_entry_eq_none_iff _ d).mp hnone
          (new_checkin_row newId d now rate) (by simp) ⟨rfl, rfl⟩
      cases ho2 : open_entry_for_date
          (entries ++ [new_checkin_row newId d now rate]) d with
      | none => exact absurd ho2 hne
      | some oe2 => unfold check_in; rw [ho2]

/-- Claim C5 witness: a concrete check-in on a day whose only row is
closed succeeds and appends the open row. -/
theorem C5_checkIn_witness :
    check_in [row_closed] "2024-03-05" ⟨9, 0⟩ 5 1 =
      .ok ([row_closed] ++ [new_checkin_row 1 "2024-03-05" ⟨9, 0⟩ 5]) :=
  (C5_checkIn [row_closed] "2024-03-05" ⟨9, 0⟩ 5 1).2.1 (by decide)

/-- Claim C6: when no open entry exists for the date, check_out fails with
NoOpenEntry; the model returns no new table on an error, matching the
handler that returns before issuing any UPDATE. -/
theorem C6_checkOut_noOpen (entries : List WorkEntry) (today : String)
    (now : Time) (dr : ℚ)
    (h : ∀ e ∈ entries, ¬(e.work_date = today ∧ e.check_out = none)) :
    check_out entries today now dr = .error .noOpenEntry := by
  have hnone := (open_entry_eq_none_iff entries today).mpr h
  unfold check_out
  rw [hnone]

/-- Claim C6 witness: checking out a day holding only a closed row fails
with NoOpenEntry. -/
theorem C6_checkOut_noOpen_witness :
    check_out [row_closed] "2024-03-05" ⟨17, 0⟩ 5 = .error .noOpenEntry :=
  C6_checkOut_noOpen [row_closed] "2024-03-05" ⟨17, 0⟩ 5 (by decide)

/-- Claim C7 counterexample: an unparseable rate in add_record does not
fail; the row is inserted with the default rate substituted.  An
unparseable month in the report routes does not fail; the current month is
substituted. -/
theorem C7_counterexample :
    add_record [] "2024-03-10" none none none 5 1 =
      [{ id := 1, work_date := "2024-03-10", check_in := none,
         check_out := none, total_hours := none, hourly_rate := some 5,
         daily_salary := none }] ∧
    resolve_month none 2024 5 = (2024, 5) :=
  ⟨rfl, rfl⟩

/-- Claim C7 amended: only the settings update rejects an unparseable
rate; add_record and edit_record substitute the default rate, and the
report routes substitute the current month for an unparseable month. -/
theorem C7_invalidInput :
    (∀ current : ℚ, update_default_rate current none = .error .invalidInput) ∧
    (∀ current r : ℚ, update_default_rate current (some r) = .ok r) ∧
    (∀ newId wd ci co dr, (add_row newId wd ci co none dr).hourly_rate = some dr) ∧
    (∀ rid wd ci co dr, (edit_row rid wd ci co none dr).hourly_rate = some dr) ∧
    (∀ y m, resolve_month none y m = (y, m)) := by
  refine ⟨fun _ => rfl, fun _ _ => rfl, ?_, ?_, fun _ _ => rfl⟩
  · intro newId wd ci co dr
    cases ci <;> cases co <;> rfl
  · intro rid wd ci co dr
    cases ci <;> cases co <;> rfl

/-- Claim C8: deleting an id that is not in the table raises nothing and
leaves every row in place (the modelled delete_record returns the table and
has no error outcome, matching the unconditional DELETE). -/
theorem C8_deleteEntry (entries : List WorkEntry) (record_id : Nat)
    (h : ∀ e ∈ entries, e.id ≠ record_id) :
    delete_record entries record_id = entries := by
  unfold delete_record
  rw [List.filter_eq_self]
  intro e he
  simpa using h e he

/-- Claim C8 witness: deleting the absent id 99 leaves the two-row table
unchanged. -/
theorem C8_deleteEntry_witness :
    delete_record [row_open, row_closed] 99 = [row_open, row_closed] :=
  C8_deleteEntry [row_open, row_closed] 99 (by decide)

/-- Claim C9: editing an absent id fails with NotFound and maps no row;
editing a present id overwrites exactly the rows carrying that id with the
freshly built row, and that row is built by the same rule as add_record. -/
theorem C9_editEntry (entries : List WorkEntry) (rid : Nat) (wd : String)
    (ci co : Option Time) (r : Option ℚ) (dr : ℚ) :
    ((∀ e ∈ entries, e.id ≠ rid) →
      edit_record entries rid wd ci co r dr = .error .notFound) ∧
    ((∃ e ∈ entries, e.id = rid) →
      edit_record entries rid wd ci co r dr =
        .ok (entries.map fun e =>
          if e.id = rid then edit_row rid wd ci co r dr else e)) ∧
    edit_row rid wd ci co r dr = add_row rid wd ci co r dr ∧
    (∀ tci tco, (edit_row rid wd (some tci) (some tco) r dr).total_hours =
      some (compute_total_hours tci tco)) ∧
    ((ci = none ∨ co = none) →
      (edit_row rid wd ci co r dr).total_hours = none ∧
      (edit_row rid wd ci co r dr).daily_salary = none) := by
  refine ⟨?_, ?_, ?_, ?_, ?_⟩
  · intro h
    have hany : (entries.any fun e => decide (e.id = rid)) = false := by
      rw [List.any_eq_false]
      intro e he
      simpa using h e he
    simp [edit_record, hany]
  · rintro ⟨e, he, hid⟩
    have hany : (entries.any fun e => decide (e.id = rid)) = true := by
      rw [List.any_eq_true]
      exact ⟨e, he, by simpa using hid⟩
    simp [edit_record, hany]
  · cases ci <;> cases co <;> rfl
  · intro tci tco
    rfl
  · rintro (h | h) <;> subst h
    · exact ⟨by cases co <;> rfl, by cases co <;> rfl⟩
    · exact ⟨by cases ci <;> rfl, by cases ci <;> rfl⟩

/-- Claim C9 witness: editing absent id 99 fails with NotFound; editing
present id 2 rewrites exactly that row. -/
theorem C9_editEntry_witness :
    edit_record [row_open, row_closed] 99 "2024-03-06" none none (some 6) 5 =
      .error .notFound ∧
    edit_record [row_open, row_closed] 2 "2024-03-06" none none (some 6) 5 =
      .ok ([row_open, row_closed].map fun e =>
        if e.id = 2 then edit_row 2 "2024-03-06" none none (some 6) 5 else e) :=
  ⟨(C9_editEntry [row_open, row_closed] 99 "2024-03-06" none none
      (some 6) 5).1 (by decide),
   (C9_editEntry [row_open, row_closed] 2 "2024-03-06" none none
      (some 6) 5).2.1
     ⟨row_closed, List.mem_cons_of_mem _ (List.mem_cons_self _ _), rfl⟩⟩

/-- Claim C10: a successful check-out keeps the table length, leaves every
row whose id differs from the targeted open entry untouched, rewrites only
the rows carrying the target id, and the rewrite assigns only check_out,
total_hours and daily_salary, preserving id, work_date, check_in and
hourly_rate. -/
theorem C10_checkOut_frame (entries : List WorkEntry) (today : String)
    (now : Time) (dr : ℚ) (oe : WorkEntry) (ci : Time) (st2 : List WorkEntry)
    (ho : open_entry_for_date entries today = some oe)
    (hci : oe.check_in = some ci)
    (hok : check_out entries today now dr = .ok st2) :
    st2.length = entries.length ∧
    (∀ (i : Nat) (e : WorkEntry), entries[i]? = some e → e.id ≠ oe.id →
      st2[i]? = some e) ∧
    (∀ (i : Nat) (e : WorkEntry), entries[i]? = some e → e.id = oe.id →
      st2[i]? = some (checked_out_row e now (compute_total_hours ci now)
        (round2 (compute_total_hours ci now *
          rateOrDefault oe.hourly_rate dr)))) ∧
    (∀ e th ds, (checked_out_row e now th ds).id = e.id ∧
      (checked_out_row e now th ds).work_date = e.work_date ∧
      (checked_out_row e now th ds).check_in = e.check_in ∧
      (checked_out_row e now th ds).hourly_rate = e.hourly_rate) := by
  have heq := check_out_ok_eq entries today now dr oe ci ho hci
  rw [hok] at heq
  injection heq with hst2
  subst hst2
  refine ⟨by simp, ?_, ?_, ?_⟩
  · intro i e hi hne
    rw [List.getElem?_map, hi]
    simp [hne]
  · intro i e hi hid
    rw [List.getElem?_map, hi]
    simp [hid]
  · intro e th ds
    exact ⟨rfl, rfl, rfl, rfl⟩

/-- The table a concrete check-out of row_open at 17:00 produces. -/
def c10_result : List WorkEntry :=
  [checked_out_row row_open ⟨17, 0⟩ (compute_total_hours ⟨9, 0⟩ ⟨17, 0⟩)
    (round2 (compute_total_hours ⟨9, 0⟩ ⟨17, 0⟩ * rateOrDefault (some 5) 7)),
   row_closed]

/-- Claim C10 witness: in a concrete two-row table, checking out rewrites
only the open row and keeps the closed row at its position. -/
theorem C10_checkOut_frame_witness :
    c10_result[0]? = some (checked_out_row row_open ⟨17, 0⟩
      (compute_total_hours ⟨9, 0⟩ ⟨17, 0⟩)
      (round2 (compute_total_hours ⟨9, 0⟩ ⟨17, 0⟩ *
        rateOrDefault row_open.hourly_rate 7))) ∧
    c10_result[1]? = some row_closed :=
  ⟨(C10_checkOut_frame [row_open, row_closed] "2024-03-05" ⟨17, 0⟩ 7 row_open
      ⟨9, 0⟩ c10_result rfl rfl rfl).2.2.1 0 row_open rfl rfl,
   (C10_checkOut_frame [row_open, row_closed] "2024-03-05" ⟨17, 0⟩ 7 row_open
      ⟨9, 0⟩ c10_result rfl rfl rfl).2.1 1 row_closed rfl (by decide)⟩

/-- An open row whose stored hourly_rate is 0.0: present, but falsy in
Python. -/
def row_zero_rate : WorkEntry :=
  { id := 1, work_date := "2024-03-05", check_in := some ⟨9, 0⟩,
    check_out := none, total_hours := none, hourly_rate := some 0,
    daily_salary := none }

/-- Claim C2 counterexample: a stored rate of 0 is present yet not used:
an 8-hour day is paid 40 at the default rate 5, not 0 at the stored
rate. -/
theorem C2_counterexample :
    row_zero_rate.hourly_rate = some 0 ∧
    rateOrDefault row_zero_rate.hourly_rate 5 = 5 ∧
    check_out [row_zero_rate] "2024-03-05" ⟨17, 0⟩ 5 =
      .ok [checked_out_row row_zero_rate ⟨17, 0⟩
        (compute_total_hours ⟨9, 0⟩ ⟨17, 0⟩)
        (round2 (compute_total_hours ⟨9, 0⟩ ⟨17, 0⟩ * 5))] ∧
    round2 (compute_total_hours ⟨9, 0⟩ ⟨17, 0⟩ * 5) = 40 ∧
    round2 (compute_total_hours ⟨9, 0⟩ ⟨17, 0⟩ * 0) = 0 ∧
    (40 : ℚ) ≠ 0 := by
  refine ⟨rfl, by simp [rateOrDefault, row_zero_rate], ?_, ?_, ?_, by norm_num⟩
  · have h := check_out_ok_eq [row_zero_rate] "2024-03-05" ⟨17, 0⟩ 5
      row_zero_rate ⟨9, 0⟩ rfl rfl
    rw [h]
    simp [rateOrDefault, row_zero_rate]
  · norm_num [compute_total_hours, Time.toMinutes, round2]
  · norm_num [compute_total_hours, Time.toMinutes, round2]

/-- Claim C2 amended: a successful check-out prices the day with the
stored rate when that rate is present and nonzero, and falls back to the
default setting when the stored rate is absent or zero (Python truthiness
of the stored float). -/
theorem C2_checkOut_rate (entries : List WorkEntry) (today : String)
    (now : Time) (dr : ℚ) (oe : WorkEntry) (ci : Time)
    (ho : open_entry_for_date entries today = some oe)
    (hci : oe.check_in = some ci) :
    check_out entries today now dr = .ok (entries.map fun e =>
      if e.id = oe.id then
        checked_out_row e now (compute_total_hours ci now)
          (round2 (compute_total_hours ci now *
            rateOrDefault oe.hourly_rate dr))
      else e) ∧
    (∀ q : ℚ, oe.hourly_rate = some q → q ≠ 0 →
      rateOrDefault oe.hourly_rate dr = q) ∧
    ((oe.hourly_rate = none ∨ oe.hourly_rate = some 0) →
      rateOrDefault oe.hourly_rate dr = dr) := by
  refine ⟨check_out_ok_eq entries today now dr oe ci ho hci, ?_, ?_⟩
  · intro q hq hne
    rw [hq]
    simp [rateOrDefault, hne]
  · rintro (h | h) <;> rw [h] <;> simp [rateOrDefault]

/-- Claim C2 witness: checking out the open row with stored rate 5 under
default 7 uses the stored rate. -/
theorem C2_checkOut_rate_witness :
    check_out [row_open, row_closed] "2024-03-05" ⟨17, 0⟩ 7 =
      .ok ([row_open, row_closed].map fun e =>
        if e.id = row_open.id then
          checked_out_row e ⟨17, 0⟩ (compute_total_hours ⟨9, 0⟩ ⟨17, 0⟩)
            (round2 (compute_total_hours ⟨9, 0⟩ ⟨17, 0⟩ *
              rateOrDefault row_open.hourly_rate 7))
        else e) ∧
    (∀ q : ℚ, row_open.hourly_rate = some q → q ≠ 0 →
      rateOrDefault row_open.hourly_rate 7 = q) ∧
    ((row_open.hourly_rate = none ∨ row_open.hourly_rate = some 0) →
      rateOrDefault row_open.hourly_rate 7 = 7) :=
  C2_checkOut_rate [row_open, row_closed] "2024-03-05" ⟨17, 0⟩ 7 row_open
    ⟨9, 0⟩ rfl rfl

/-- Claim C1 counterexample: add_record accepts a check_out with an empty
check_in; the inserted entry has check_out set while total_hours and
daily_salary stay NULL. -/
theorem C1_counterexample :
    ∃ e, add_record [] "2024-03-10" none (some ⟨17, 0⟩) (some 5) 5 1 = [e] ∧
      e.check_out ≠ none ∧ e.total_hours = none ∧ e.daily_salary = none :=
  ⟨add_row 1 "2024-03-10" none (some ⟨17, 0⟩) (some 5) 5, rfl,
    by decide, rfl, rfl⟩

/-- Claim C1 amended: rows produced by check_in are open (check_out NULL);
rows produced by add_record or edit_record with both times present carry
total_hours computed from their own pair and daily_salary from their own
stored rate; with a missing check_in both derived columns stay NULL even
when check_out is set; and check_out fills the derived columns of the
targeted row from its own check_in and its stored rate, falling back to
the default only when the stored rate is absent or zero. -/
theorem C1_derived_columns :
    (∀ newId d now q, (new_checkin_row newId d now q).check_out = none) ∧
    (∀ newId wd tci tco r dr,
      (add_row newId wd (some tci) (some tco) r dr).total_hours =
        some (compute_total_hours tci tco) ∧
      ∃ hr, (add_row newId wd (some tci) (some tco) r dr).hourly_rate = some hr ∧
        (add_row newId wd (some tci) (some tco) r dr).daily_salary =
          some (round2 (compute_total_hours tci tco * hr))) ∧
    (∀ newId wd co r dr, (add_row newId wd none co r dr).total_hours = none ∧
      (add_row newId wd none co r dr).daily_salary = none) ∧
    (∀ rid wd tci tco r dr,
      (edit_row rid wd (some tci) (some tco) r dr).total_hours =
        some (compute_total_hours tci tco) ∧
      ∃ hr, (edit_row rid wd (some tci) (some tco) r dr).hourly_rate = some hr ∧
        (edit_row rid wd (some tci) (some tco) r dr).daily_salary =
          some (round2 (compute_total_hours tci tco * hr))) ∧
    (∀ rid wd ci r dr, (edit_row rid wd ci none r dr).total_hours = none ∧
      (edit_row rid wd ci none r dr).daily_salary = none) ∧
    (∀ entries today now dr oe ci,
      open_entry_for_date entries today = some oe → oe.check_in = some ci →
      check_out entries today now dr = .ok (entries.map fun e =>
        if e.id = oe.id then
          checked_out_row e now (compute_total_hours ci now)
            (round2 (compute_total_hours ci now *
              rateOrDefault oe.hourly_rate dr))
        else e)) := by
  refine ⟨fun _ _ _ _ => rfl, ?_, ?_, ?_, ?_, ?_⟩
  · intro newId wd tci tco r dr
    refine ⟨rfl, ?_⟩
    cases r with
    | none => exact ⟨dr, rfl, rfl⟩
    | some q => exact ⟨q, rfl, rfl⟩
  · intro newId wd co r dr
    exact ⟨by cases co <;> rfl, by cases co <;> rfl⟩
  · intro rid wd tci tco r dr
    refine ⟨rfl, ?_⟩
    cases r with
    | none => exact ⟨dr, rfl, rfl⟩
    | some q => exact ⟨q, rfl, rfl⟩
  · intro rid wd ci r dr
    exact ⟨by cases ci <;> rfl, by cases ci <;> rfl⟩
  · intro entries today now dr oe ci ho hci
    exact check_out_ok_eq entries today now dr oe ci ho hci

/-- Claim C1 witness: the check-out clause applied to a concrete open
row. -/
theorem C1_derived_columns_witness :
    check_out [row_open, row_closed] "2024-03-05" ⟨18, 0⟩ 9 =
      .ok ([row_open, row_closed].map fun e =>
        if e.id = row_open.id then
          checked_out_row e ⟨18, 0⟩ (compute_total_hours ⟨9, 0⟩ ⟨18, 0⟩)
            (round2 (compute_total_hours ⟨9, 0⟩ ⟨18, 0⟩ *
              rateOrDefault row_open.hourly_rate 9))
        else e) :=
  C1_derived_columns.2.2.2.2.2 [row_open, row_closed] "2024-03-05" ⟨18, 0⟩ 9
    row_open ⟨9, 0⟩ rfl rfl

/-- Claim C3: the reported month range runs from the first calendar day to
the last calendar day computed by the rule the spec states (first day plus
28 days, plus 4 days, truncated back to day 1, minus 1 day); the rows are
exactly the entries whose work_date lies in that inclusive range, in
ascending work_date order; and the two totals are the sums of the per-row
values with NULL as 0, each rounded to 2 decimals. -/
theorem C3_monthlyReport (entries : List WorkEntry) (y m : Nat)
    (h1 : 1 ≤ m) (h2 : m ≤ 12) :
    (report entries y m).start_date = { year := y, month := m, day := 1 } ∧
    (report entries y m).end_date = lastDay_specRule y m ∧
    (report entries y m).rows.Perm (entries.filter (inRange
      (Date.toISO { year := y, month := m, day := 1 })
      (Date.toISO (lastDay_specRule y m)))) ∧
    List.Sorted byDate (report entries y m).rows ∧
    (report entries y m).total_hours = round2 (List.sum (List.map
      (fun r => r.total_hours.getD 0) (entries.filter (inRange
        (Date.toISO { year := y, month := m, day := 1 })
        (Date.toISO (lastDay_specRule y m)))))) ∧
    (report entries y m).total_salary = round2 (List.sum (List.map
      (fun r => r.daily_salary.getD 0) (entries.filter (inRange
        (Date.toISO { year := y, month := m, day := 1 })
        (Date.toISO (lastDay_specRule y m)))))) := by
  have hend := report_end_eq_spec y m h1 h2
  have hstart : report_start y m = ({ year := y, month := m, day := 1 } : Date) := rfl
  have hed : (report entries y m).end_date = report_end y m := by
    simp only [report]
  have hrows : (report entries y m).rows = List.insertionSort byDate
      (entries.filter (inRange (Date.toISO (report_start y m))
        (Date.toISO (report_end y m)))) := by
    simp only [report]
  have hth : (report entries y m).total_hours = round2 (List.sum (List.map
      (fun r => r.total_hours.getD 0) (report entries y m).rows)) := by
    simp only [report]
  have hts : (report entries y m).total_salary = round2 (List.sum (List.map
      (fun r => r.daily_salary.getD 0) (report entries y m).rows)) := by
    simp only [report]
  refine ⟨rfl, ?_, ?_, ?_, ?_, ?_⟩
  · rw [hed]
    exact hend
  · rw [hrows, ← hend, ← hstart]
    exact List.perm_insertionSort byDate _
  · rw [hrows]
    exact List.sorted_insertionSort byDate _
  · rw [hth, hrows, ← hend, ← hstart]
    exact congrArg round2 (List.Perm.sum_eq (List.Perm.map _
      (List.perm_insertionSort byDate _)))
  · rw [hts, hrows, ← hend, ← hstart]
    exact congrArg round2 (List.Perm.sum_eq (List.Perm.map _
      (List.perm_insertionSort byDate _)))

/-- The scenario of the spec: entries for 2024-03-01, 02 and 03 with hours 8,
7.5 and 8 at rate 5 each. -/
def scenario_entries : List WorkEntry :=
  [{ id := 1, work_date := "2024-03-01", check_in := some ⟨9, 0⟩,
     check_out := some ⟨17, 0⟩, total_hours := some 8, hourly_rate := some 5,
     daily_salary := some 40 },
   { id := 2, work_date := "2024-03-02", check_in := some ⟨9, 0⟩,
     check_out := some ⟨16, 30⟩, total_hours := some (15/2),
     hourly_rate := some 5, daily_salary := some (75/2) },
   { id := 3, work_date := "2024-03-03", check_in := some ⟨9, 0⟩,
     check_out := some ⟨17, 0⟩, total_hours := some 8, hourly_rate := some 5,
     daily_salary := some 40 }]

set_option maxHeartbeats 2000000 in
/-- Claim C3 witness: the scenario of the spec, with the totals evaluated:
totalHours 23.5 and totalSalary 117.5. -/
theorem C3_monthlyReport_witness :
    ((report scenario_entries 2024 3).start_date =
        { year := 2024, month := 3, day := 1 } ∧
      (report scenario_entries 2024 3).end_date = lastDay_specRule 2024 3 ∧
      (report scenario_entries 2024 3).rows.Perm (scenario_entries.filter
        (inRange (Date.toISO { year := 2024, month := 3, day := 1 })
          (Date.toISO (lastDay_specRule 2024 3)))) ∧
      List.Sorted byDate (report scenario_entries 2024 3).rows ∧
      (report scenario_entries 2024 3).total_hours = round2 (List.sum
        (List.map (fun r => r.total_hours.getD 0) (scenario_entries.filter
          (inRange (Date.toISO { year := 2024, month := 3, day := 1 })
            (Date.toISO (lastDay_specRule 2024 3)))))) ∧
      (report scenario_entries 2024 3).total_salary = round2 (List.sum
        (List.map (fun r => r.daily_salary.getD 0) (scenario_entries.filter
          (inRange (Date.toISO { year := 2024, month := 3, day := 1 })
            (Date.toISO (lastDay_specRule 2024 3))))))) ∧
    (report scenario_entries 2024 3).total_hours = 47/2 ∧
    (report scenario_entries 2024 3).total_salary = 235/2 := by
  have hrows : (report scenario_entries 2024 3).rows = scenario_entries := by
    simp only [report]
    rfl
  refine ⟨C3_monthlyReport scenario_entries 2024 3 (by norm_num)
    (by norm_num), ?_, ?_⟩
  · have hth : (report scenario_entries 2024 3).total_hours =
        round2 (List.sum (List.map (fun r => r.total_hours.getD 0)
          (report scenario_entries 2024 3).rows)) := by
      simp only [report]
    rw [hth, hrows]
    norm_num [scenario_entries, round2]
  · have hts : (report scenario_entries 2024 3).total_salary =
        round2 (List.sum (List.map (fun r => r.daily_salary.getD 0)
          (report scenario_entries 2024 3).rows)) := by
      simp only [report]
    rw [hts, hrows]
    norm_num [scenario_entries, round2]

end MySalary
